import Mathlib

/-!
# ovn-operator: DNS record synchronisation and database address formatting

A shallow embedding of `pkg/ovndbcluster/dnsdata.go` (`DNSData`, `GetDBAddress`) and of
the lookup helper `GetDNSDataHostnameIP` from `tests/functional/base_test.go`, together
with the parts of the Go standard library, of apimachinery and of controller-runtime
those functions call.  Go packages become Lean namespaces; the API server is an explicit
state that is passed in and returned.
-/

set_option autoImplicit false

/-! ## Go runtime: errors, panics and `fmt` -/

/-- Go `error` values: `errors.New` / `fmt.Errorf` without `%w` give `errorString`,
`fmt.Errorf` with one `%w` operand gives `wrapError` (message plus wrapped error). -/
inductive GoError where
  | errorString (s : String)
  | wrapError (msg : String) (err : GoError)
  deriving DecidableEq

namespace GoError

/-- The `Error()` method. -/
def Error : GoError → String
  | errorString s => s
  | wrapError msg _ => msg

/-- The `Unwrap()` method (`errors.Unwrap`). -/
def Unwrap : GoError → Option GoError
  | errorString _ => none
  | wrapError _ err => some err

end GoError

/-- Outcome of a Go call that returns a value or panics at run time. -/
inductive GoResult (α : Type) where
  | ok (v : α)
  | panic (msg : String)
  deriving DecidableEq

/-- Run-time panic message of `s[i]` on a slice of length `len`. -/
def indexOutOfRange (i len : Nat) : String :=
  "runtime error: index out of range [" ++ toString i ++ "] with length " ++ toString len

namespace fmt

/-- Operands of the formatting calls of the program. -/
inductive Arg where
  | str (s : String)
  | int (i : Int)
  | err (e : GoError)
  deriving DecidableEq

/-- Rendering of one operand under one verb: `%s`/`%v` print a string or an error's
`Error()`, `%d`/`%v` print an integer in signed decimal, `%w` prints an error like `%v`.
Any other pairing is a bad-verb diagnostic; its text is abbreviated here (no call of the
program produces one). -/
def formatVerb (verb : Char) (a : Arg) : List Char :=
  match verb, a with
  | 's', .str s => s.toList
  | 'v', .str s => s.toList
  | 'd', .int i => (toString i).toList
  | 'v', .int i => (toString i).toList
  | 's', .err e => e.Error.toList
  | 'v', .err e => e.Error.toList
  | 'w', .err e => e.Error.toList
  | v, _ => '%' :: '!' :: v :: "(BADVERB)".toList

/-- The formatting loop: literal characters are copied, `%%` is a percent sign, and each
other `%x` consumes the next operand. -/
def doPrintf : List Char → List Arg → List Char
  | [], _ => []
  | '%' :: '%' :: rest, args => '%' :: doPrintf rest args
  | '%' :: v :: rest, a :: args => formatVerb v a ++ doPrintf rest args
  | '%' :: v :: rest, [] => '%' :: '!' :: v :: "(MISSING)".toList ++ doPrintf rest []
  | c :: rest, args => c :: doPrintf rest args

/-- Model of `fmt.Sprintf`. -/
def Sprintf (format : String) (args : List Arg) : String :=
  String.mk (doPrintf format.toList args)

/-- The operand of the first `%w` verb of the format, when it is an error. -/
def wrappedOperand : List Char → List Arg → Option GoError
  | [], _ => none
  | '%' :: '%' :: rest, args => wrappedOperand rest args
  | '%' :: 'w' :: _, .err e :: _ => some e
  | '%' :: _ :: rest, _ :: args => wrappedOperand rest args
  | '%' :: _ :: _, [] => none
  | _ :: rest, args => wrappedOperand rest args

/-- Model of `fmt.Errorf`: the message is formatted as by `Sprintf`; with a `%w` error
operand the result wraps that operand. -/
def Errorf (format : String) (args : List Arg) : GoError :=
  match wrappedOperand format.toList args with
  | some e => .wrapError (Sprintf format args) e
  | none => .errorString (Sprintf format args)

end fmt

/-! ## Kubernetes API types read or written by the program -/

namespace metav1

/-- The `metav1.OwnerReference` type. -/
structure OwnerReference where
  APIVersion : String
  Kind : String
  Name : String
  UID : String
  Controller : Option Bool
  BlockOwnerDeletion : Option Bool
  deriving DecidableEq

/-- The `metav1.ObjectMeta` fields the program and its store can observe; Go maps are
association lists. -/
structure ObjectMeta where
  Name : String := ""
  Namespace : String := ""
  UID : String := ""
  ResourceVersion : String := ""
  Labels : List (String × String) := []
  Annotations : List (String × String) := []
  OwnerReferences : List OwnerReference := []
  Finalizers : List String := []
  deriving DecidableEq

/-- The function `metav1.GetControllerOf`: the first owner reference whose `Controller`
pointer is set and true. -/
def GetControllerOf (refs : List OwnerReference) : Option OwnerReference :=
  refs.find? (fun r => r.Controller == some true)

end metav1

namespace schema

/-- The `schema.GroupVersionKind` type. -/
structure GroupVersionKind where
  Group : String
  Version : String
  Kind : String
  deriving DecidableEq

/-- The method `GroupVersion.String` applied to the group and version of a kind. -/
def GroupVersionString (gvk : GroupVersionKind) : String :=
  if gvk.Group.length > 0 then gvk.Group ++ "/" ++ gvk.Version else gvk.Version

/-- The function `schema.ParseGroupVersion`, returning the group and the version, or
`none` where Go returns an error (more than one slash). -/
def ParseGroupVersion (gv : String) : Option (String × String) :=
  if gv.length = 0 ∨ gv = "/" then some ("", "")
  else
    match gv.toList.count '/' with
    | 0 => some ("", gv)
    | 1 => some (String.mk (gv.toList.takeWhile (fun c => c != '/')),
                 String.mk ((gv.toList.dropWhile (fun c => c != '/')).drop 1))
    | _ => none

end schema

namespace corev1

/-- The `corev1.ServicePort` type; `Port` is an `int32`. -/
structure ServicePort where
  Name : String := ""
  Port : Int
  deriving DecidableEq

/-- The `corev1.ServiceSpec` type. -/
structure ServiceSpec where
  Ports : List ServicePort := []
  deriving DecidableEq

/-- The `corev1.Service` type. -/
structure Service where
  ObjectMeta : metav1.ObjectMeta := {}
  Spec : ServiceSpec := {}
  deriving DecidableEq

/-- The `corev1.Pod` type; the program reads only the pod's metadata. -/
structure Pod where
  ObjectMeta : metav1.ObjectMeta := {}
  deriving DecidableEq

/-- Promoted field `Pod.Name`. -/
def Pod.Name (p : Pod) : String := p.ObjectMeta.Name

/-- Promoted field `Pod.Namespace`. -/
def Pod.Namespace (p : Pod) : String := p.ObjectMeta.Namespace

end corev1

namespace ovnv1

/-- The `ovnv1.OVNDBCluster` type; the program reads only its metadata. -/
structure OVNDBCluster where
  ObjectMeta : metav1.ObjectMeta := {}
  deriving DecidableEq

/-- Promoted field `OVNDBCluster.Namespace`. -/
def OVNDBCluster.Namespace (o : OVNDBCluster) : String := o.ObjectMeta.Namespace

end ovnv1

namespace infranetworkv1

/-- The `infranetworkv1.DNSHost` type. -/
structure DNSHost where
  IP : String
  Hostnames : List String
  deriving DecidableEq

/-- The `infranetworkv1.DNSDataSpec` type. -/
structure DNSDataSpec where
  Hosts : List DNSHost := []
  DNSDataLabelSelectorValue : String := ""
  deriving DecidableEq

/-- The `infranetworkv1.DNSDataStatus` type. -/
structure DNSDataStatus where
  Conditions : List String := []
  Hash : String := ""
  deriving DecidableEq

/-- The `infranetworkv1.DNSData` type. -/
structure DNSData where
  ObjectMeta : metav1.ObjectMeta := {}
  Spec : DNSDataSpec := {}
  Status : DNSDataStatus := {}
  deriving DecidableEq

/-- Promoted field `DNSData.Name`. -/
def DNSData.Name (d : DNSData) : String := d.ObjectMeta.Name

/-- Promoted field `DNSData.Namespace`. -/
def DNSData.Namespace (d : DNSData) : String := d.ObjectMeta.Namespace

end infranetworkv1

/-! ## The API server behind `client.Client` -/

namespace client

open infranetworkv1

/-- The `client.ObjectKey` type (`types.NamespacedName`). -/
structure ObjectKey where
  Namespace : String
  Name : String
  deriving DecidableEq

/-- The function `client.ObjectKeyFromObject`. -/
def ObjectKeyFromObject (obj : DNSData) : ObjectKey :=
  { Namespace := obj.Namespace, Name := obj.Name }

/-- The DNSData objects held by the API server, together with the failure (if any) that
each kind of request currently meets (connection loss, admission denial, ...). -/
structure Client where
  objects : List DNSData := []
  getErr : Option GoError := none
  createErr : Option GoError := none
  patchErr : Option GoError := none
  statusPatchErr : Option GoError := none
  deriving DecidableEq

/-- Outcome of `Get`: the stored object, a NotFound error, or another error. -/
inductive GetResult where
  | found (obj : DNSData)
  | notFound
  | failed (err : GoError)
  deriving DecidableEq

/-- The stored object with the given key, if any. -/
def Client.lookup (c : Client) (key : ObjectKey) : Option DNSData :=
  c.objects.find? (fun o => decide (ObjectKeyFromObject o = key))

/-- The method `Client.Get`. -/
def Client.Get (c : Client) (key : ObjectKey) : GetResult :=
  match c.getErr with
  | some err => .failed err
  | none =>
    match c.lookup key with
    | some obj => .found obj
    | none => .notFound

/-- The stored objects with every object of the given key replaced by `new`. -/
def replaceObject (key : ObjectKey) (new : DNSData) (objects : List DNSData) : List DNSData :=
  objects.map (fun o => if ObjectKeyFromObject o = key then new else o)

/-- The function `strconv.ParseUint(s, 10, 64)`: a non-empty run of decimal digits below
`2^64`, `none` where Go returns an error. -/
def ParseUint (s : String) : Option Nat :=
  if s.toList ≠ [] ∧ s.toList.all Char.isDigit = true then
    let n := s.toList.foldl (fun acc ch => 10 * acc + (ch.toNat - 48)) 0
    if n < 18446744073709551616 then some n else none
  else none

/-- The version the store gives an object when it accepts a write to it: the stored version
read as an unsigned 64-bit number, plus one.  (This is the numbering of the object tracker
behind controller-runtime clients; an API server hands out numbers of its own.) -/
def nextResourceVersion (stored : String) : Option String :=
  (ParseUint stored).map (fun n => toString ((n + 1) % 18446744073709551616))

/-- The method `Client.Create`: the object is added with its first version unless the
request fails, the object already carries a version, or an object with the same key exists.
Returns the new state and the object as stored. -/
def Client.Create (c : Client) (obj : DNSData) : Except GoError (Client × DNSData) :=
  match c.createErr with
  | some err => .error err
  | none =>
    if obj.ObjectMeta.ResourceVersion ≠ "" then
      .error (.errorString "resourceVersion can not be set for Create requests")
    else
      match c.lookup (ObjectKeyFromObject obj) with
      | some _ => .error (.errorString ("dnsdatas \"" ++ obj.Name ++ "\" already exists"))
      | none =>
        let new := { obj with ObjectMeta := { obj.ObjectMeta with ResourceVersion := "1" } }
        .ok ({ c with objects := c.objects ++ [new] }, new)

/-- The method `Client.Patch` with a merge patch computed from the object as read at the
start of the same call: metadata and spec of the stored object become those of `obj`, the
status (a subresource) stays as stored, and the version advances.  Returns the new state
and the object as stored. -/
def Client.Patch (c : Client) (obj : DNSData) : Except GoError (Client × DNSData) :=
  match c.patchErr with
  | some err => .error err
  | none =>
    match c.lookup (ObjectKeyFromObject obj) with
    | none => .error (.errorString ("dnsdatas \"" ++ obj.Name ++ "\" not found"))
    | some stored =>
      match nextResourceVersion stored.ObjectMeta.ResourceVersion with
      | none =>
        .error (.errorString ("can not convert resourceVersion \"" ++
          stored.ObjectMeta.ResourceVersion ++ "\" to int"))
      | some rv =>
        let new := { obj with
          ObjectMeta := { obj.ObjectMeta with ResourceVersion := rv }
          Status := stored.Status }
        .ok ({ c with objects := replaceObject (ObjectKeyFromObject obj) new c.objects }, new)

/-- The method `Client.Status().Patch`: only the status of the stored object changes, and
its version advances. -/
def Client.StatusPatch (c : Client) (obj : DNSData) : Except GoError (Client × DNSData) :=
  match c.statusPatchErr with
  | some err => .error err
  | none =>
    match c.lookup (ObjectKeyFromObject obj) with
    | none => .error (.errorString ("dnsdatas \"" ++ obj.Name ++ "\" not found"))
    | some stored =>
      match nextResourceVersion stored.ObjectMeta.ResourceVersion with
      | none =>
        .error (.errorString ("can not convert resourceVersion \"" ++
          stored.ObjectMeta.ResourceVersion ++ "\" to int"))
      | some rv =>
        let new := { stored with
          ObjectMeta := { stored.ObjectMeta with ResourceVersion := rv }
          Status := obj.Status }
        .ok ({ c with objects := replaceObject (ObjectKeyFromObject obj) new c.objects }, new)

/-- An owner object as `SetControllerReference` sees it: its metadata and the Go type
under which the scheme knows it. -/
structure Object where
  GoType : String
  ObjectMeta : metav1.ObjectMeta := {}
  deriving DecidableEq

end client

namespace runtime

/-- The `runtime.Scheme` type: registered Go types with their group, version and kind. -/
abbrev Scheme := List (String × schema.GroupVersionKind)

end runtime

namespace apiutil

/-- The function `apiutil.GVKForObject`. -/
def GVKForObject (obj : client.Object) (scheme : runtime.Scheme) :
    Except GoError schema.GroupVersionKind :=
  match scheme.lookup obj.GoType with
  | some gvk => .ok gvk
  | none =>
    .error (.errorString ("no kind is registered for the type " ++ obj.GoType ++
      " in scheme \"pkg/runtime/scheme.go:100\""))

end apiutil

namespace helper

/-- The `helper.Helper` type of lib-common: the client, the object being reconciled as it
was read, and the scheme. -/
structure Helper where
  beforeObject : client.Object
  scheme : runtime.Scheme
  client : client.Client

/-- The method `Helper.GetClient`. -/
def Helper.GetClient (h : Helper) : client.Client := h.client

/-- The method `Helper.GetBeforeObject`. -/
def Helper.GetBeforeObject (h : Helper) : client.Object := h.beforeObject

/-- The method `Helper.GetScheme`. -/
def Helper.GetScheme (h : Helper) : runtime.Scheme := h.scheme

end helper

/-! ## controller-runtime: `controllerutil` -/

namespace controllerutil

open infranetworkv1 metav1 client

/-- The function `validateOwner`: a namespaced owner must live in the namespace of the
object it owns. -/
def validateOwner (owner : Object) (object : DNSData) : Option GoError :=
  let ownerNs := owner.ObjectMeta.Namespace
  if ownerNs ≠ "" then
    let objNs := object.Namespace
    if objNs = "" then
      some (fmt.Errorf
        "cluster-scoped resource must not have a namespace-scoped owner, owner\x27s namespace %s"
        [.str ownerNs])
    else if ownerNs ≠ objNs then
      some (fmt.Errorf
        "cross-namespace owner references are disallowed, owner\x27s namespace %s, obj\x27s namespace %s"
        [.str ownerNs, .str objNs])
    else none
  else none

/-- The function `referSameObject`: same group, kind and name. -/
def referSameObject (a b : OwnerReference) : Bool :=
  match schema.ParseGroupVersion a.APIVersion with
  | none => false
  | some aGV =>
    match schema.ParseGroupVersion b.APIVersion with
    | none => false
    | some bGV => aGV.1 == bGV.1 && a.Kind == b.Kind && a.Name == b.Name

/-- The function `upsertOwnerRef`: the first reference to the same object is replaced,
otherwise the reference is appended. -/
def upsertOwnerRef (ref : OwnerReference) : List OwnerReference → List OwnerReference
  | [] => [ref]
  | r :: rest => if referSameObject r ref then ref :: rest else r :: upsertOwnerRef ref rest

/-- The controller reference `SetControllerReference` builds for an owner. -/
def controllerRef (owner : Object) (gvk : schema.GroupVersionKind) : OwnerReference :=
  { APIVersion := schema.GroupVersionString gvk
    Kind := gvk.Kind
    Name := owner.ObjectMeta.Name
    UID := owner.ObjectMeta.UID
    BlockOwnerDeletion := some true
    Controller := some true }

/-- The function `controllerutil.SetControllerReference`.  Returns the controlled object
(changed only on success) and the error. -/
def SetControllerReference (owner : Object) (controlled : DNSData) (scheme : runtime.Scheme) :
    DNSData × Option GoError :=
  match validateOwner owner controlled with
  | some err => (controlled, some err)
  | none =>
    match apiutil.GVKForObject owner scheme with
    | .error err => (controlled, some err)
    | .ok gvk =>
      let ref := controllerRef owner gvk
      match GetControllerOf controlled.ObjectMeta.OwnerReferences with
      | some existing =>
        if !referSameObject existing ref then
          (controlled, some (fmt.Errorf "Object %s/%s is already owned by another %s controller %s"
            [.str controlled.Namespace, .str controlled.Name, .str existing.Kind,
             .str existing.Name]))
        else
          ({ controlled with ObjectMeta := { controlled.ObjectMeta with
              OwnerReferences := upsertOwnerRef ref controlled.ObjectMeta.OwnerReferences } }, none)
      | none =>
        ({ controlled with ObjectMeta := { controlled.ObjectMeta with
            OwnerReferences := upsertOwnerRef ref controlled.ObjectMeta.OwnerReferences } }, none)

/-- The `controllerutil.OperationResult` type. -/
inductive OperationResult where
  | None
  | Created
  | Updated
  | UpdatedStatus
  | UpdatedStatusOnly
  deriving DecidableEq

/-- A `controllerutil.MutateFn` closure over the object pointer: the object after the
closure ran, and the error it returned. -/
abbrev MutateFn := DNSData → DNSData × Option GoError

/-- The function `mutate`: runs the closure and rejects a change of name or namespace. -/
def mutate (f : MutateFn) (key : ObjectKey) (obj : DNSData) : DNSData × Option GoError :=
  match f obj with
  | (obj, some err) => (obj, some err)
  | (obj, none) =>
    if key ≠ ObjectKeyFromObject obj then
      (obj, some (fmt.Errorf "MutateFn cannot mutate object name and/or object namespace" []))
    else (obj, none)

/-- What a `CreateOrPatch` call leaves behind: the API server state, the object behind
the pointer, and the two return values. -/
structure Outcome where
  client : Client
  obj : DNSData
  result : OperationResult
  err : Option GoError
  deriving DecidableEq

/-- The status half of `CreateOrPatch`: a status patch is sent only when the closure
changed the status. -/
def patchStatus (c : Client) (obj : DNSData) (beforeStatus afterStatus : DNSDataStatus)
    (result : OperationResult) : Outcome :=
  if beforeStatus ≠ afterStatus then
    let obj := if result = .Updated then { obj with Status := afterStatus } else obj
    match c.StatusPatch obj with
    | .error err => { client := c, obj := obj, result := result, err := some err }
    | .ok (c, obj) =>
      { client := c, obj := obj,
        result := if result = .Updated then .UpdatedStatus else .UpdatedStatusOnly,
        err := none }
  else { client := c, obj := obj, result := result, err := none }

/-- The function `controllerutil.CreateOrPatch`: read the object by key; when it is not
found, mutate and create; when it is found, mutate the object read and patch the resource
(and then its status) only where the mutated object differs from the one read. -/
def CreateOrPatch (c : Client) (obj : DNSData) (f : MutateFn) : Outcome :=
  let key := ObjectKeyFromObject obj
  match c.Get key with
  | .failed err => { client := c, obj := obj, result := .None, err := some err }
  | .notFound =>
    match mutate f key obj with
    | (obj, some err) => { client := c, obj := obj, result := .None, err := some err }
    | (obj, none) =>
      match c.Create obj with
      | .error err => { client := c, obj := obj, result := .None, err := some err }
      | .ok (c, obj) => { client := c, obj := obj, result := .Created, err := none }
  | .found stored =>
    let before := { stored with Status := {} }
    let beforeStatus := stored.Status
    match mutate f key stored with
    | (obj, some err) => { client := c, obj := obj, result := .None, err := some err }
    | (obj, none) =>
      let after := { obj with Status := {} }
      let afterStatus := obj.Status
      if before ≠ after then
        match c.Patch obj with
        | .error err => { client := c, obj := obj, result := .None, err := some err }
        | .ok (c, obj) => patchStatus c obj beforeStatus afterStatus .Updated
      else patchStatus c obj beforeStatus afterStatus .None

end controllerutil

/-! ## `pkg/ovndbcluster/dnsdata.go` -/

namespace ovndbcluster

open infranetworkv1

/-- The function literal passed to `CreateOrPatch` in `DNSData`. -/
def DNSData.mutateFn (helper : helper.Helper) (dnsHosts : List DNSHost) :
    controllerutil.MutateFn := fun dnsData =>
  let dnsData := { dnsData with Spec := { dnsData.Spec with Hosts := dnsHosts } }
  let dnsData := { dnsData with Spec := { dnsData.Spec with DNSDataLabelSelectorValue := "dnsdata" } }
  match controllerutil.SetControllerReference helper.GetBeforeObject dnsData helper.GetScheme with
  | (dnsData, some err) => (dnsData, some err)
  | (dnsData, none) => (dnsData, none)

/-- The function `DNSData`: create the DNS entry that the dnsmasq of openstack resolves.
Returns the API server state after the call and the returned error. -/
def DNSData (helper : helper.Helper) (serviceName : String) (ip : String)
    (inst : ovnv1.OVNDBCluster) (ovnPod : corev1.Pod) (serviceLabels : List (String × String)) :
    client.Client × Option GoError :=
  let headlessDNSHostname := serviceName ++ "." ++ inst.Namespace ++ ".svc"
  let dnsHostCname : DNSHost := { IP := ip, Hostnames := [headlessDNSHostname] }
  let dnsData : infranetworkv1.DNSData :=
    { ObjectMeta := { Name := ovnPod.Name, Namespace := ovnPod.Namespace, Labels := serviceLabels } }
  let dnsHosts := [dnsHostCname]
  let out := controllerutil.CreateOrPatch helper.GetClient dnsData (DNSData.mutateFn helper dnsHosts)
  match out.err with
  | some err =>
    (out.client, some (fmt.Errorf "Error creating DNSData %s: %w" [.str out.obj.Name, .err err]))
  | none => (out.client, none)

/-- The function `GetDBAddress`: the connection string for the given service. -/
def GetDBAddress (svc : Option corev1.Service) (serviceName : String) (namespace_ : String) :
    GoResult String :=
  match svc with
  | none => .ok ""
  | some svc =>
    let headlessDNSHostname := serviceName ++ "." ++ namespace_ ++ ".svc"
    match svc.Spec.Ports with
    | [] => .panic (indexOutOfRange 0 0)
    | port :: _ => .ok (fmt.Sprintf "tcp:%s:%d" [.str headlessDNSHostname, .int port.Port])

end ovndbcluster

/-! ## `tests/functional/base_test.go` -/

namespace functional_test

open infranetworkv1

/-- The function `GetDNSData`: the object that `Get` reads, or a failed assertion (a panic
of the test) when `Eventually` never sees the `Get` succeed. -/
def GetDNSData (k8sClient : client.Client) (name : client.ObjectKey) : GoResult DNSData :=
  match k8sClient.Get name with
  | .found dns => .ok dns
  | .notFound => .panic ("Timed out: dnsdatas \"" ++ name.Name ++ "\" not found")
  | .failed err => .panic ("Timed out: " ++ err.Error)

/-- The inner loop of `GetDNSDataHostnameIP` over `host.Hostnames`, started at index `i`:
`none` when the loop ends without returning. -/
def hostnameLoop (hosts : List DNSHost) (dnsHostname : String) :
    List String → Nat → Option (GoResult String)
  | [], _ => none
  | hostname :: rest, i =>
    if hostname = dnsHostname then
      match hosts.get? i with
      | some h => some (.ok h.IP)
      | none => some (.panic (indexOutOfRange i hosts.length))
    else hostnameLoop hosts dnsHostname rest (i + 1)

/-- The outer loop of `GetDNSDataHostnameIP` over `dnsEntry.Spec.Hosts`. -/
def hostLoop (hosts : List DNSHost) (dnsHostname : String) : List DNSHost → GoResult String
  | [] => .ok ""
  | host :: rest =>
    match hostnameLoop hosts dnsHostname host.Hostnames 0 with
    | some r => r
    | none => hostLoop hosts dnsHostname rest

/-- The function `GetDNSDataHostnameIP`. -/
def GetDNSDataHostnameIP (k8sClient : client.Client) (dnsDataName : String)
    (namespace_ : String) (dnsHostname : String) : GoResult String :=
  match GetDNSData k8sClient { Name := dnsDataName, Namespace := namespace_ } with
  | .panic msg => .panic msg
  | .ok dnsEntry => hostLoop dnsEntry.Spec.Hosts dnsHostname dnsEntry.Spec.Hosts

end functional_test

/-! ## Vocabulary of the statements -/

namespace ovndbcluster

open infranetworkv1

/-- The hostname `DNSData` computes on its first line. -/
def headlessDNSHostname (serviceName : String) (inst : ovnv1.OVNDBCluster) : String :=
  serviceName ++ "." ++ inst.Namespace ++ ".svc"

/-- The key under which `DNSData` stores the record of a pod. -/
def podKey (ovnPod : corev1.Pod) : client.ObjectKey :=
  { Namespace := ovnPod.Namespace, Name := ovnPod.Name }

/-- The object literal `DNSData` hands to `CreateOrPatch`: name and namespace of the pod,
the service labels, every other field zero. -/
def initialRecord (ovnPod : corev1.Pod) (serviceLabels : List (String × String)) :
    infranetworkv1.DNSData :=
  { ObjectMeta := { Name := ovnPod.Name, Namespace := ovnPod.Namespace, Labels := serviceLabels } }

/-- A record after the three assignments of the mutate closure of `DNSData`: host list,
label selector value, and the owner references with the controller reference `ref`
upserted; every other field is the one of `d`. -/
def syncedRecord (ref : metav1.OwnerReference) (dnsHosts : List DNSHost) (d : infranetworkv1.DNSData) :
    infranetworkv1.DNSData :=
  { d with
    Spec := { Hosts := dnsHosts, DNSDataLabelSelectorValue := "dnsdata" }
    ObjectMeta := { d.ObjectMeta with
      OwnerReferences := controllerutil.upsertOwnerRef ref d.ObjectMeta.OwnerReferences } }

/-- A record with its `metadata.resourceVersion` set to `rv`, all else as in `d`. -/
def withResourceVersion (rv : String) (d : infranetworkv1.DNSData) : infranetworkv1.DNSData :=
  { d with ObjectMeta := { d.ObjectMeta with ResourceVersion := rv } }

/-- Unique keys: the API server holds at most one object per namespace and name. -/
def uniqueKeys (c : client.Client) : Prop :=
  (c.objects.map client.ObjectKeyFromObject).Nodup

instance (c : client.Client) : Decidable (uniqueKeys c) :=
  inferInstanceAs (Decidable (c.objects.map client.ObjectKeyFromObject).Nodup)

end ovndbcluster

/-! ## A concrete deployment, used to instantiate the statements -/

namespace scenario

open infranetworkv1

/-- Scheme with the OVNDBCluster kind registered. -/
def scheme : runtime.Scheme :=
  [("v1beta1.OVNDBCluster",
    { Group := "ovn.openstack.org", Version := "v1beta1", Kind := "OVNDBCluster" })]

/-- The northbound cluster instance `ovn-nb` in namespace `openstack`. -/
def cluster : ovnv1.OVNDBCluster :=
  { ObjectMeta := { Name := "ovn-nb", Namespace := "openstack", UID := "7d9f" } }

/-- Helper of a reconcile of `cluster` against an empty store. -/
def helper : helper.Helper :=
  { beforeObject := { GoType := "v1beta1.OVNDBCluster", ObjectMeta := cluster.ObjectMeta }
    scheme := scheme
    client := {} }

/-- The first replica pod of the cluster. -/
def pod : corev1.Pod :=
  { ObjectMeta := { Name := "ovsdbserver-nb-0", Namespace := "openstack" } }

/-- Labels of the headless service. -/
def labels : List (String × String) := [("service", "ovsdbserver-nb")]

/-- The headless service with the northbound port first and a second port after it. -/
def service : corev1.Service :=
  { ObjectMeta := { Name := "ovsdbserver-nb", Namespace := "openstack" }
    Spec := { Ports := [{ Name := "north", Port := 6641 }, { Name := "raft", Port := 6643 }] } }

/-- A service that exposes no port. -/
def portlessService : corev1.Service :=
  { ObjectMeta := { Name := "ovsdbserver-nb", Namespace := "openstack" } }

/-- A record of the pod written by hand earlier and stored at version 999: other labels,
another address, an annotation, a status, and no owner reference. -/
def staleRecord : DNSData :=
  { ObjectMeta := { Name := "ovsdbserver-nb-0", Namespace := "openstack", ResourceVersion := "999",
                    Labels := [("service", "legacy")], Annotations := [("note", "manual")] }
    Spec := { Hosts := [{ IP := "10.0.0.9", Hostnames := ["legacy.openstack.svc"] }] }
    Status := { Hash := "n5f8" } }

/-- Helper of a reconcile of `cluster` against a store that holds `staleRecord`. -/
def helperWithStale : helper.Helper :=
  { helper with client := { objects := [staleRecord] } }

/-- Helper whose create requests are refused by the API server. -/
def helperCreateRefused : helper.Helper :=
  { helper with client := { createErr := some (.errorString "admission webhook denied the request") } }

/-- A record with one host entry that carries two hostnames. -/
def twoNameRecord : DNSData :=
  { ObjectMeta := { Name := "ovsdbserver-nb-0", Namespace := "openstack" }
    Spec := { Hosts := [{ IP := "10.0.0.5",
                          Hostnames := ["ovsdbserver-nb.openstack.svc", "nb.openstack.svc"] }] } }

/-- A record with two host entries, the first with two hostnames. -/
def twoHostRecord : DNSData :=
  { ObjectMeta := { Name := "ovsdbserver-nb-1", Namespace := "openstack" }
    Spec := { Hosts := [{ IP := "10.0.0.5",
                          Hostnames := ["ovsdbserver-nb.openstack.svc", "nb.openstack.svc"] },
                        { IP := "10.0.0.6", Hostnames := ["sb.openstack.svc"] }] } }

/-- A store holding `twoNameRecord` and `twoHostRecord`. -/
def lookupStore : client.Client := { objects := [twoNameRecord, twoHostRecord] }

end scenario

/-! # Theorems -/

/-! ## Formatting lemmas -/

theorem Sprintf_tcp (host : String) (port : Int) :
    fmt.Sprintf "tcp:%s:%d" [.str host, .int port] = "tcp:" ++ host ++ ":" ++ toString port := by
  apply String.ext
  simp [fmt.Sprintf, fmt.doPrintf, fmt.formatVerb]

theorem Errorf_creating (name : String) (err : GoError) :
    fmt.Errorf "Error creating DNSData %s: %w" [.str name, .err err] =
      .wrapError ("Error creating DNSData " ++ name ++ ": " ++ err.Error) err := by
  have h : fmt.Sprintf "Error creating DNSData %s: %w" [.str name, .err err] =
      "Error creating DNSData " ++ name ++ ": " ++ err.Error := by
    apply String.ext
    simp [fmt.Sprintf, fmt.doPrintf, fmt.formatVerb]
  simp [fmt.Errorf, h, fmt.wrappedOperand]

theorem digitChar_ne_colon (n : Nat) : Nat.digitChar n ≠ ':' := by
  by_cases h : n < 16
  · interval_cases n <;> decide
  · have hstar : Nat.digitChar n = '*' := by
      unfold Nat.digitChar
      repeat rw [if_neg (by omega)]
    rw [hstar]
    decide

theorem toDigitsCore_no_colon (b : Nat) : ∀ (fuel n : Nat) (ds : List Char),
    ':' ∉ ds → ':' ∉ Nat.toDigitsCore b fuel n ds := by
  intro fuel
  induction fuel with
  | zero => intro n ds h; simpa [Nat.toDigitsCore] using h
  | succ fuel ih =>
    intro n ds h
    have hd : ':' ∉ Nat.digitChar (n % b) :: ds := by
      simp only [List.mem_cons, not_or]
      exact ⟨fun e => digitChar_ne_colon _ e.symm, h⟩
    simp only [Nat.toDigitsCore]
    split
    · exact hd
    · exact ih _ _ hd

theorem natRepr_no_colon (n : Nat) : ':' ∉ (toString n).toList := by
  show ':' ∉ (Nat.repr n).toList
  simp only [Nat.repr, Nat.toDigits, List.asString, String.toList]
  exact toDigitsCore_no_colon 10 _ _ _ (by simp)

theorem intToString_no_colon (i : Int) : ':' ∉ (toString i).toList := by
  cases i with
  | ofNat m => exact natRepr_no_colon m
  | negSucc m =>
    show ':' ∉ ("-" ++ toString (Nat.succ m)).toList
    have := natRepr_no_colon (Nat.succ m)
    simp only [String.toList] at this ⊢
    simp [String.data_append, this]

/-! ## The store -/

namespace client

open infranetworkv1

theorem lookup_key {c : Client} {key : ObjectKey} {o : DNSData} (h : c.lookup key = some o) :
    ObjectKeyFromObject o = key := by
  have := List.find?_some h
  simpa using this

theorem find_replaceObject (key k : ObjectKey) (new : DNSData)
    (hnew : ObjectKeyFromObject new = key) (objs : List DNSData) :
    (replaceObject key new objs).find? (fun o => decide (ObjectKeyFromObject o = k)) =
      if k = key then (objs.find? (fun o => decide (ObjectKeyFromObject o = k))).map (fun _ => new)
      else objs.find? (fun o => decide (ObjectKeyFromObject o = k)) := by
  induction objs with
  | nil => simp [replaceObject]
  | cons o rest ih =>
    simp only [replaceObject, List.map_cons] at ih ⊢
    by_cases hk : k = key
    · subst hk
      simp only [if_true] at ih ⊢
      by_cases ho : ObjectKeyFromObject o = k
      · simp [ho, hnew]
      · simp [ho, ih]
    · simp only [if_neg hk] at ih ⊢
      by_cases ho : ObjectKeyFromObject o = key
      · have hok : ¬ ObjectKeyFromObject o = k := fun e => hk (e.symm.trans ho)
        have hnk : ¬ ObjectKeyFromObject new = k := fun e => hk (e.symm.trans hnew)
        have hkk : ¬ key = k := fun e => hk e.symm
        simp [ho, hkk, hnk, ih, List.find?_cons]
      · simp only [if_neg ho]
        by_cases hok : ObjectKeyFromObject o = k
        · simp [hok]
        · simp [hok, ih]

theorem keys_replaceObject (key : ObjectKey) (new : DNSData)
    (hnew : ObjectKeyFromObject new = key) (objs : List DNSData) :
    (replaceObject key new objs).map ObjectKeyFromObject = objs.map ObjectKeyFromObject := by
  induction objs with
  | nil => simp [replaceObject]
  | cons o rest ih =>
    simp only [replaceObject, List.map_cons] at ih ⊢
    by_cases ho : ObjectKeyFromObject o = key
    · simp [ho, hnew, ih]
    · simp [ho, ih]

theorem find_none_not_mem_keys (k : ObjectKey) (objs : List DNSData)
    (h : objs.find? (fun o => decide (ObjectKeyFromObject o = k)) = none) :
    k ∉ objs.map ObjectKeyFromObject := by
  simp only [List.find?_eq_none, decide_eq_true_eq] at h
  simp only [List.mem_map, not_exists, not_and]
  intro o ho e
  exact h o ho e

theorem filter_key_of_nodup (k : ObjectKey) (r : DNSData) : ∀ (objs : List DNSData),
    (objs.map ObjectKeyFromObject).Nodup →
    objs.find? (fun o => decide (ObjectKeyFromObject o = k)) = some r →
    objs.filter (fun o => decide (ObjectKeyFromObject o = k)) = [r] := by
  intro objs
  induction objs with
  | nil => intro _ h; simp at h
  | cons o rest ih =>
    intro hnd hf
    simp only [List.map_cons, List.nodup_cons] at hnd
    by_cases ho : ObjectKeyFromObject o = k
    · simp only [List.find?_cons, ho, decide_True, Option.some.injEq] at hf
      subst hf
      have hrest : rest.filter (fun o => decide (ObjectKeyFromObject o = k)) = [] := by
        simp only [List.filter_eq_nil_iff, decide_eq_true_eq]
        intro x hx e
        exact hnd.1 (by rw [ho, ← e]; exact List.mem_map_of_mem _ hx)
      simp [List.filter_cons, ho, hrest]
    · simp only [List.find?_cons, ho, decide_False] at hf
      simp [List.filter_cons, ho, ih hnd.2 hf]

end client

/-! ## The mutate closure and `CreateOrPatch` -/

namespace ovndbcluster

open infranetworkv1 metav1 client controllerutil

theorem syncedRecord_key (ref : OwnerReference) (hosts : List DNSHost) (d : infranetworkv1.DNSData) :
    ObjectKeyFromObject (syncedRecord ref hosts d) = ObjectKeyFromObject d := rfl

theorem syncedRecord_status (ref : OwnerReference) (hosts : List DNSHost) (d : infranetworkv1.DNSData) :
    (syncedRecord ref hosts d).Status = d.Status := rfl

theorem withResourceVersion_key (rv : String) (d : infranetworkv1.DNSData) :
    ObjectKeyFromObject (withResourceVersion rv d) = ObjectKeyFromObject d := rfl

theorem withResourceVersion_self (d : infranetworkv1.DNSData) :
    withResourceVersion d.ObjectMeta.ResourceVersion d = d := rfl

theorem syncedRecord_withResourceVersion (ref : OwnerReference) (hosts : List DNSHost)
    (rv : String) (d : infranetworkv1.DNSData) :
    syncedRecord ref hosts (withResourceVersion rv d) =
      withResourceVersion rv (syncedRecord ref hosts d) := rfl

/-- An owner that `validateOwner` accepts is cluster-scoped or lives in the namespace of
the object. -/
theorem validateOwner_none {owner : Object} {object : infranetworkv1.DNSData}
    (h : validateOwner owner object = none) :
    owner.ObjectMeta.Namespace = "" ∨
      owner.ObjectMeta.Namespace = object.ObjectMeta.Namespace := by
  unfold validateOwner at h
  by_cases h1 : owner.ObjectMeta.Namespace = ""
  · exact Or.inl h1
  · right
    by_cases h2 : object.Namespace = ""
    · simp [h1, h2] at h
    · by_cases h3 : owner.ObjectMeta.Namespace = object.Namespace
      · exact h3
      · simp [h1, h2, h3] at h

/-- The two outcomes of the mutate closure: an error of `SetControllerReference`, with the
spec already assigned, or the synced record. -/
theorem mutateFn_cases (h : helper.Helper) (hosts : List DNSHost) (d : infranetworkv1.DNSData) :
    (∃ e, DNSData.mutateFn h hosts d =
        ({ d with Spec := { Hosts := hosts, DNSDataLabelSelectorValue := "dnsdata" } }, some e)) ∨
    (∃ gvk, apiutil.GVKForObject h.beforeObject h.scheme = .ok gvk ∧
      (h.beforeObject.ObjectMeta.Namespace = "" ∨
        h.beforeObject.ObjectMeta.Namespace = d.ObjectMeta.Namespace) ∧
      (∀ e, GetControllerOf d.ObjectMeta.OwnerReferences = some e →
        referSameObject e (controllerRef h.beforeObject gvk) = true) ∧
      DNSData.mutateFn h hosts d = (syncedRecord (controllerRef h.beforeObject gvk) hosts d, none)) := by
  unfold DNSData.mutateFn SetControllerReference
  simp only [helper.Helper.GetBeforeObject, helper.Helper.GetScheme]
  cases hv : validateOwner h.beforeObject
      { d with Spec := { Hosts := hosts, DNSDataLabelSelectorValue := "dnsdata" } } with
  | some e => exact Or.inl ⟨e, by simp⟩
  | none =>
    have hns := validateOwner_none hv
    cases hg : apiutil.GVKForObject h.beforeObject h.scheme with
    | error e => exact Or.inl ⟨e, by simp⟩
    | ok gvk =>
      cases hc : GetControllerOf d.ObjectMeta.OwnerReferences with
      | none =>
        refine Or.inr ⟨gvk, rfl, hns, ?_, ?_⟩
        · intro e he; cases he
        · simp [hc, syncedRecord]
      | some ex =>
        by_cases hr : referSameObject ex (controllerRef h.beforeObject gvk) = true
        · refine Or.inr ⟨gvk, rfl, hns, ?_, ?_⟩
          · intro e he; cases he; exact hr
          · simp [hc, hr, syncedRecord]
        · refine Or.inl ⟨fmt.Errorf "Object %s/%s is already owned by another %s controller %s"
            [.str d.Namespace, .str d.Name, .str ex.Kind, .str ex.Name], ?_⟩
          simp [hc, hr, DNSData.Name, DNSData.Namespace]

theorem status_cleared_eq_iff (a b : infranetworkv1.DNSData) (hs : a.Status = b.Status) :
    ({ a with Status := {} } : infranetworkv1.DNSData) = { b with Status := {} } ↔ a = b := by
  cases a; cases b
  simp only at hs
  simp [hs]

/-- Every way a `CreateOrPatch` call with the mutate closure of `DNSData` can end. -/
theorem CreateOrPatch_mutateFn (c : Client) (h : helper.Helper) (hosts : List DNSHost)
    (new : infranetworkv1.DNSData) :
    (∃ e, (CreateOrPatch c new (DNSData.mutateFn h hosts)).err = some e ∧
        (CreateOrPatch c new (DNSData.mutateFn h hosts)).client = c ∧
        (CreateOrPatch c new (DNSData.mutateFn h hosts)).obj.Name = new.Name) ∨
    (∃ gvk, apiutil.GVKForObject h.beforeObject h.scheme = .ok gvk ∧
      (CreateOrPatch c new (DNSData.mutateFn h hosts)).err = none ∧ c.getErr = none ∧
      (h.beforeObject.ObjectMeta.Namespace = "" ∨
        h.beforeObject.ObjectMeta.Namespace = new.ObjectMeta.Namespace) ∧
      ((c.lookup (ObjectKeyFromObject new) = none ∧
          (CreateOrPatch c new (DNSData.mutateFn h hosts)).client =
            { c with
              objects := c.objects ++
                [withResourceVersion "1"
                  (syncedRecord (controllerRef h.beforeObject gvk) hosts new)] }) ∨
       (∃ old, c.lookup (ObjectKeyFromObject new) = some old ∧
          (∀ e, GetControllerOf old.ObjectMeta.OwnerReferences = some e →
            referSameObject e (controllerRef h.beforeObject gvk) = true) ∧
          ((syncedRecord (controllerRef h.beforeObject gvk) hosts old ≠ old ∧
            ∃ rv, (CreateOrPatch c new (DNSData.mutateFn h hosts)).client =
              { c with
                objects := replaceObject (ObjectKeyFromObject new)
                  (withResourceVersion rv
                    (syncedRecord (controllerRef h.beforeObject gvk) hosts old)) c.objects }) ∨
           (syncedRecord (controllerRef h.beforeObject gvk) hosts old = old ∧
            (CreateOrPatch c new (DNSData.mutateFn h hosts)).client = c))))) := by
  obtain ⟨objs, ge, ce, pe, se⟩ := c
  unfold CreateOrPatch
  simp only [Client.Get]
  cases ge with
  | some e => exact Or.inl ⟨e, by simp⟩
  | none =>
    cases hl : Client.lookup ⟨objs, none, ce, pe, se⟩ (ObjectKeyFromObject new) with
    | none =>
      simp only
      rcases mutateFn_cases h hosts new with ⟨e, hf⟩ | ⟨gvk, hg, hns, hok, hf⟩
      · refine Or.inl ⟨e, ?_⟩
        simp [mutate, hf, DNSData.Name]
      · have hm : mutate (DNSData.mutateFn h hosts) (ObjectKeyFromObject new) new =
            (syncedRecord (controllerRef h.beforeObject gvk) hosts new, none) := by
          simp [mutate, hf, syncedRecord_key]
        simp only [hm, Client.Create]
        cases ce with
        | some e => exact Or.inl ⟨e, by simp [syncedRecord, DNSData.Name]⟩
        | none =>
          have hrvs : (syncedRecord (controllerRef h.beforeObject gvk) hosts
              new).ObjectMeta.ResourceVersion = new.ObjectMeta.ResourceVersion := rfl
          by_cases hrv : new.ObjectMeta.ResourceVersion = ""
          · refine Or.inr ⟨gvk, hg, ?_, trivial, hns, Or.inl ⟨trivial, ?_⟩⟩
            · simp [hrvs, hrv, syncedRecord_key, hl]
            · simp [hrvs, hrv, syncedRecord_key, hl, withResourceVersion]
          · refine Or.inl ⟨.errorString "resourceVersion can not be set for Create requests", ?_⟩
            simp [hrvs, hrv, syncedRecord, DNSData.Name]
    | some old =>
      have hkold : ObjectKeyFromObject old = ObjectKeyFromObject new := lookup_key hl
      have hnold : old.Name = new.Name := by
        have := congrArg ObjectKey.Name hkold
        simpa [ObjectKeyFromObject] using this
      have hnsold : old.ObjectMeta.Namespace = new.ObjectMeta.Namespace := by
        have := congrArg ObjectKey.Namespace hkold
        simpa [ObjectKeyFromObject, DNSData.Namespace] using this
      simp only
      rcases mutateFn_cases h hosts old with ⟨e, hf⟩ | ⟨gvk, hg, hns, hok, hf⟩
      · refine Or.inl ⟨e, ?_⟩
        simp [mutate, hf, DNSData.Name]
        simpa [DNSData.Name] using hnold
      · rw [hnsold] at hns
        have hm : mutate (DNSData.mutateFn h hosts) (ObjectKeyFromObject new) old =
            (syncedRecord (controllerRef h.beforeObject gvk) hosts old, none) := by
          simp [mutate, hf, syncedRecord_key, hkold]
        simp only [hm]
        by_cases hd : syncedRecord (controllerRef h.beforeObject gvk) hosts old = old
        · have hcond : ¬ ((({ old with Status := {} } : infranetworkv1.DNSData)) ≠
              { syncedRecord (controllerRef h.beforeObject gvk) hosts old with Status := {} }) := by
            rw [hd]; simp
          simp only [if_neg hcond, patchStatus, syncedRecord_status, ne_eq, not_true_eq_false,
            if_false]
          refine Or.inr ⟨gvk, hg, ?_, trivial, hns, Or.inr ⟨old, ?_, hok, Or.inr ⟨hd, ?_⟩⟩⟩ <;>
            first | rfl | trivial
        · have hcond : ((({ old with Status := {} } : infranetworkv1.DNSData)) ≠
              { syncedRecord (controllerRef h.beforeObject gvk) hosts old with Status := {} }) := by
            intro e
            exact hd ((status_cleared_eq_iff _ _ (by rfl)).1 e).symm
          simp only [if_pos hcond, Client.Patch, syncedRecord_key, hkold, hl]
          cases pe with
          | some e =>
            refine Or.inl ⟨e, ?_⟩
            simp [syncedRecord, DNSData.Name]
            simpa [DNSData.Name] using hnold
          | none =>
            cases hnext : nextResourceVersion old.ObjectMeta.ResourceVersion with
            | none =>
              refine Or.inl ⟨.errorString ("can not convert resourceVersion \"" ++
                old.ObjectMeta.ResourceVersion ++ "\" to int"), ?_⟩
              simp only [hnext]
              refine ⟨trivial, trivial, ?_⟩
              simpa [syncedRecord, DNSData.Name] using hnold
            | some rv =>
              simp only [hnext, patchStatus, syncedRecord_status, ne_eq, not_true_eq_false,
                if_false]
              refine Or.inr ⟨gvk, hg, ?_, trivial, hns,
                Or.inr ⟨old, ?_, hok, Or.inl ⟨hd, rv, ?_⟩⟩⟩ <;> first | rfl | trivial

end ovndbcluster

namespace ovndbcluster

open infranetworkv1 metav1 client controllerutil

theorem referSameObject_self_of_right {r ref : OwnerReference}
    (h : referSameObject r ref = true) : referSameObject ref ref = true := by
  unfold referSameObject at h ⊢
  cases hr : schema.ParseGroupVersion r.APIVersion with
  | none => simp [hr] at h
  | some a =>
    cases hp : schema.ParseGroupVersion ref.APIVersion with
    | none => simp [hr, hp] at h
    | some b => simp

theorem upsertOwnerRef_idem (ref : OwnerReference) (hc : ref.Controller = some true) :
    ∀ l : List OwnerReference,
      (∀ e, GetControllerOf (upsertOwnerRef ref l) = some e → referSameObject e ref = true) →
      upsertOwnerRef ref (upsertOwnerRef ref l) = upsertOwnerRef ref l := by
  intro l
  induction l with
  | nil =>
    intro hok
    have hself : referSameObject ref ref = true := by
      apply hok ref
      simp [upsertOwnerRef, GetControllerOf, hc]
    simp [upsertOwnerRef, hself]
  | cons r rest ih =>
    intro hok
    by_cases hr : referSameObject r ref = true
    · have hself := referSameObject_self_of_right hr
      simp [upsertOwnerRef, hr, hself]
    · have hrc : ¬ (r.Controller = some true) := by
        intro hrc
        apply hr
        apply hok r
        simp [upsertOwnerRef, hr, GetControllerOf, hrc]
      have hok2 : ∀ e, GetControllerOf (upsertOwnerRef ref rest) = some e →
          referSameObject e ref = true := by
        intro e he
        apply hok e
        simp only [upsertOwnerRef, hr, GetControllerOf] at he ⊢
        simp [List.find?_cons, hrc, he]
      simp [upsertOwnerRef, hr, ih hok2]

theorem syncedRecord_idem (ref : OwnerReference) (hc : ref.Controller = some true)
    (hosts : List DNSHost) (d : infranetworkv1.DNSData)
    (hok : ∀ e, GetControllerOf (syncedRecord ref hosts d).ObjectMeta.OwnerReferences = some e →
      referSameObject e ref = true) :
    syncedRecord ref hosts (syncedRecord ref hosts d) = syncedRecord ref hosts d := by
  have := upsertOwnerRef_idem ref hc d.ObjectMeta.OwnerReferences hok
  simp only [syncedRecord, this]

/-- The two return values of `DNSData` in terms of the `CreateOrPatch` call it makes. -/
theorem DNSData_eq (h : helper.Helper) (s ip : String) (inst : ovnv1.OVNDBCluster)
    (pod : corev1.Pod) (labels : List (String × String)) :
    DNSData h s ip inst pod labels =
      ((CreateOrPatch h.client (initialRecord pod labels)
          (DNSData.mutateFn h [{ IP := ip, Hostnames := [headlessDNSHostname s inst] }])).client,
       (CreateOrPatch h.client (initialRecord pod labels)
          (DNSData.mutateFn h [{ IP := ip, Hostnames := [headlessDNSHostname s inst] }])).err.map
        (fun err => .wrapError ("Error creating DNSData " ++ pod.Name ++ ": " ++ err.Error) err)) := by
  unfold DNSData
  simp only [helper.Helper.GetClient, headlessDNSHostname, initialRecord]
  rcases CreateOrPatch_mutateFn h.client h
      [{ IP := ip, Hostnames := [s ++ "." ++ inst.Namespace ++ ".svc"] }]
      (initialRecord pod labels) with
    ⟨e, he, _, hn⟩ | ⟨gvk, _, he, _, _, _⟩
  · simp only [initialRecord, infranetworkv1.DNSData.Name] at he hn
    simp only [he, hn, infranetworkv1.DNSData.Name, Option.map_some', Errorf_creating]
  · simp only [initialRecord] at he
    simp only [he, Option.map_none']

/-- What a successful `DNSData` call did to the store. -/
theorem DNSData_success (h : helper.Helper) (s ip : String) (inst : ovnv1.OVNDBCluster)
    (pod : corev1.Pod) (labels : List (String × String)) (c' : Client)
    (hs : DNSData h s ip inst pod labels = (c', none)) :
    ∃ gvk, apiutil.GVKForObject h.beforeObject h.scheme = .ok gvk ∧ h.client.getErr = none ∧
      (h.beforeObject.ObjectMeta.Namespace = "" ∨
        h.beforeObject.ObjectMeta.Namespace = pod.Namespace) ∧
      ((h.client.lookup (podKey pod) = none ∧
          c' = { h.client with
            objects := h.client.objects ++
              [withResourceVersion "1" (syncedRecord (controllerRef h.beforeObject gvk)
                [{ IP := ip, Hostnames := [headlessDNSHostname s inst] }]
                (initialRecord pod labels))] }) ∨
       (∃ old, h.client.lookup (podKey pod) = some old ∧
          (∀ e, GetControllerOf old.ObjectMeta.OwnerReferences = some e →
            referSameObject e (controllerRef h.beforeObject gvk) = true) ∧
          ((syncedRecord (controllerRef h.beforeObject gvk)
              [{ IP := ip, Hostnames := [headlessDNSHostname s inst] }] old ≠ old ∧
            ∃ rv, c' = { h.client with
              objects := replaceObject (podKey pod)
                (withResourceVersion rv (syncedRecord (controllerRef h.beforeObject gvk)
                  [{ IP := ip, Hostnames := [headlessDNSHostname s inst] }] old))
                h.client.objects }) ∨
           (syncedRecord (controllerRef h.beforeObject gvk)
              [{ IP := ip, Hostnames := [headlessDNSHostname s inst] }] old = old ∧
            c' = h.client)))) := by
  rw [DNSData_eq] at hs
  have hc := congrArg Prod.fst hs
  have he := congrArg Prod.snd hs
  simp only [Option.map_eq_none'] at hc he
  rcases CreateOrPatch_mutateFn h.client h
      [{ IP := ip, Hostnames := [headlessDNSHostname s inst] }]
      (initialRecord pod labels) with
    ⟨e, he', _⟩ | ⟨gvk, hg, _, hge, hns, hcases⟩
  · rw [he] at he'; cases he'
  · refine ⟨gvk, hg, hge, hns, ?_⟩
    rw [hc] at hcases
    exact hcases

/-- After a successful `DNSData` call the record of the pod is the synced form of the
record that was stored before, or of the initial record when none was stored, at the
version the store gave it. -/
theorem DNSData_success_lookup (h : helper.Helper) (s ip : String) (inst : ovnv1.OVNDBCluster)
    (pod : corev1.Pod) (labels : List (String × String)) (c' : Client)
    (hs : DNSData h s ip inst pod labels = (c', none)) :
    ∃ gvk x rv, apiutil.GVKForObject h.beforeObject h.scheme = .ok gvk ∧
      ((h.client.lookup (podKey pod) = none ∧ x = initialRecord pod labels) ∨
        h.client.lookup (podKey pod) = some x) ∧
      (∀ e, GetControllerOf x.ObjectMeta.OwnerReferences = some e →
        referSameObject e (controllerRef h.beforeObject gvk) = true) ∧
      c'.lookup (podKey pod) = some (withResourceVersion rv
        (syncedRecord (controllerRef h.beforeObject gvk)
          [{ IP := ip, Hostnames := [headlessDNSHostname s inst] }] x)) := by
  obtain ⟨gvk, hg, hge, _, hcase⟩ := DNSData_success h s ip inst pod labels c' hs
  rcases hcase with ⟨hl, hc⟩ | ⟨old, hl, hok, ⟨_, rv, hc⟩ | ⟨hd, hc⟩⟩
  · refine ⟨gvk, initialRecord pod labels, "1", hg, Or.inl ⟨hl, rfl⟩, ?_, ?_⟩
    · intro e he
      simp [initialRecord, GetControllerOf] at he
    · subst hc
      have hl' : h.client.objects.find?
          (fun o => decide (ObjectKeyFromObject o = podKey pod)) = none := hl
      have hk0 : ObjectKeyFromObject (withResourceVersion "1"
          (syncedRecord (controllerRef h.beforeObject gvk)
            [{ IP := ip, Hostnames := [headlessDNSHostname s inst] }]
            (initialRecord pod labels))) = podKey pod := rfl
      simp only [Client.lookup, List.find?_append, hl', List.find?_cons, hk0]
      simp
  · refine ⟨gvk, old, rv, hg, Or.inr hl, hok, ?_⟩
    subst hc
    have hl' : h.client.objects.find?
        (fun o => decide (ObjectKeyFromObject o = podKey pod)) = some old := hl
    simp only [Client.lookup]
    rw [find_replaceObject _ _ _
      ((withResourceVersion_key _ _).trans ((syncedRecord_key _ _ _).trans (lookup_key hl)))]
    simp [hl']
  · refine ⟨gvk, old, old.ObjectMeta.ResourceVersion, hg, Or.inr hl, hok, ?_⟩
    subst hc
    rw [hd, withResourceVersion_self]
    exact hl

/-- A successful `DNSData` call leaves the records of all other keys as they were. -/
theorem DNSData_success_frame (h : helper.Helper) (s ip : String) (inst : ovnv1.OVNDBCluster)
    (pod : corev1.Pod) (labels : List (String × String)) (c' : Client)
    (hs : DNSData h s ip inst pod labels = (c', none)) (k : ObjectKey) (hk : k ≠ podKey pod) :
    c'.lookup k = h.client.lookup k := by
  obtain ⟨gvk, hg, hge, _, hcase⟩ := DNSData_success h s ip inst pod labels c' hs
  rcases hcase with ⟨hl, hc⟩ | ⟨old, hl, hok, ⟨_, rv, hc⟩ | ⟨hd, hc⟩⟩
  · subst hc
    have hne : ¬ (podKey pod = k) := fun e => hk e.symm
    have hk0 : ObjectKeyFromObject (withResourceVersion "1"
        (syncedRecord (controllerRef h.beforeObject gvk)
          [{ IP := ip, Hostnames := [headlessDNSHostname s inst] }]
          (initialRecord pod labels))) = podKey pod := rfl
    simp only [Client.lookup, List.find?_append, List.find?_cons, hk0]
    simp [hne]
  · subst hc
    simp only [Client.lookup]
    rw [find_replaceObject _ _ _
      ((withResourceVersion_key _ _).trans ((syncedRecord_key _ _ _).trans (lookup_key hl)))]
    simp [hk]
  · subst hc
    rfl

/-- A successful `DNSData` call keeps the keys of the store unique. -/
theorem DNSData_success_uniqueKeys (h : helper.Helper) (s ip : String)
    (inst : ovnv1.OVNDBCluster) (pod : corev1.Pod) (labels : List (String × String))
    (c' : Client) (hs : DNSData h s ip inst pod labels = (c', none))
    (hu : uniqueKeys h.client) : uniqueKeys c' := by
  obtain ⟨gvk, hg, hge, _, hcase⟩ := DNSData_success h s ip inst pod labels c' hs
  rcases hcase with ⟨hl, hc⟩ | ⟨old, hl, hok, ⟨_, rv, hc⟩ | ⟨hd, hc⟩⟩
  · subst hc
    unfold uniqueKeys at hu ⊢
    simp only [List.map_append, List.map_cons, List.map_nil]
    rw [List.nodup_append]
    refine ⟨hu, by simp, ?_⟩
    intro a ha hb
    simp only [List.mem_singleton] at hb
    subst hb
    exact find_none_not_mem_keys _ _ hl ha
  · subst hc
    unfold uniqueKeys at hu ⊢
    simp only
    rw [keys_replaceObject _ _
      ((withResourceVersion_key _ _).trans ((syncedRecord_key _ _ _).trans (lookup_key hl)))]
    exact hu
  · subst hc
    exact hu

/-- A successful `DNSData` call met no failing `Get`, and leaves the store reachable. -/
theorem DNSData_success_getErr (h : helper.Helper) (s ip : String) (inst : ovnv1.OVNDBCluster)
    (pod : corev1.Pod) (labels : List (String × String)) (c' : Client)
    (hs : DNSData h s ip inst pod labels = (c', none)) : c'.getErr = none := by
  obtain ⟨gvk, hg, hge, _, hcase⟩ := DNSData_success h s ip inst pod labels c' hs
  rcases hcase with ⟨hl, hc⟩ | ⟨old, hl, hok, ⟨_, rv, hc⟩ | ⟨hd, hc⟩⟩
  · subst hc; exact hge
  · subst hc; exact hge
  · subst hc; exact hge

end ovndbcluster

/-! ## `GetDBAddress` -/

namespace ovndbcluster

open infranetworkv1 metav1 client controllerutil

theorem GetDBAddress_of_cons (svc : corev1.Service) (s n : String) (p : corev1.ServicePort)
    (rest : List corev1.ServicePort) (hp : svc.Spec.Ports = p :: rest) :
    GetDBAddress (some svc) s n = .ok ("tcp:" ++ (s ++ "." ++ n ++ ".svc") ++ ":" ++ toString p.Port) := by
  simp only [GetDBAddress, hp, Sprintf_tcp]

theorem head_of_cons {α : Type} (l : List α) (h : l ≠ []) : ∃ rest, l = l.head h :: rest := by
  cases l with
  | nil => exact absurd rfl h
  | cons a rest => exact ⟨rest, rfl⟩

theorem tcp_append_ne_empty (t : String) : "tcp:" ++ t ≠ "" := by
  intro e
  have hlen := congrArg String.length e
  rw [String.length_append] at hlen
  have h4 : "tcp:".length = 4 := by decide
  have h0 : "".length = 0 := by decide
  omega

/-- C1: for a non-nil Service with at least one port, `GetDBAddress` returns exactly
`"tcp:" ++ serviceName ++ "." ++ namespace ++ ".svc:"` followed by the decimal rendering of
the first port number; the ports after the first play no role. -/
theorem GetDBAddress_first_port (svc : corev1.Service) (serviceName namespace_ : String)
    (h : svc.Spec.Ports ≠ []) :
    GetDBAddress (some svc) serviceName namespace_ =
      .ok ("tcp:" ++ serviceName ++ "." ++ namespace_ ++ ".svc:" ++
        toString (svc.Spec.Ports.head h).Port) := by
  obtain ⟨rest, hr⟩ := head_of_cons svc.Spec.Ports h
  rw [GetDBAddress_of_cons svc serviceName namespace_ _ rest hr]
  congr 1
  apply String.ext
  simp [String.data_append, List.append_assoc]

/-- C1 at service `ovsdbserver-nb`, namespace `openstack`, ports 6641 and 6643. -/
theorem GetDBAddress_first_port_witness :
    scenario.service.Spec.Ports ≠ [] ∧
    GetDBAddress (some scenario.service) "ovsdbserver-nb" "openstack" =
      .ok "tcp:ovsdbserver-nb.openstack.svc:6641" :=
  ⟨by decide,
   (GetDBAddress_first_port scenario.service "ovsdbserver-nb" "openstack" (by decide)).trans
     (by decide)⟩

/-- C2 (evaluation of the code): on a non-nil Service with an empty port list
`GetDBAddress` does not return the empty string; indexing the first port panics. -/
theorem GetDBAddress_zero_ports_panics :
    scenario.portlessService.Spec.Ports = [] ∧
    GetDBAddress (some scenario.portlessService) "ovsdbserver-nb" "openstack" =
      .panic "runtime error: index out of range [0] with length 0" ∧
    GetDBAddress (some scenario.portlessService) "ovsdbserver-nb" "openstack" ≠ .ok "" := by
  decide

/-- C3: without a Service `GetDBAddress` returns the empty string, and for a Service with
at least one port it returns a non-empty string. -/
theorem GetDBAddress_empty_only_without_service :
    (∀ serviceName namespace_ : String, GetDBAddress none serviceName namespace_ = .ok "") ∧
    (∀ (svc : corev1.Service) (serviceName namespace_ : String), svc.Spec.Ports ≠ [] →
      ∃ addr, GetDBAddress (some svc) serviceName namespace_ = .ok addr ∧ addr ≠ "") := by
  refine ⟨fun _ _ => rfl, ?_⟩
  intro svc s n h
  obtain ⟨rest, hr⟩ := head_of_cons svc.Spec.Ports h
  refine ⟨_, GetDBAddress_of_cons svc s n _ rest hr, ?_⟩
  rw [String.append_assoc, String.append_assoc]
  exact tcp_append_ne_empty _

/-- C3 at the service of the scenario. -/
theorem GetDBAddress_empty_only_without_service_witness :
    GetDBAddress none "ovsdbserver-nb" "openstack" = .ok "" ∧
    scenario.service.Spec.Ports ≠ [] ∧
    ∃ addr, GetDBAddress (some scenario.service) "ovsdbserver-nb" "openstack" = .ok addr ∧
      addr ≠ "" :=
  ⟨GetDBAddress_empty_only_without_service.1 _ _, by decide,
   GetDBAddress_empty_only_without_service.2 scenario.service _ _ (by decide)⟩

end ovndbcluster

/-! ## `GetDNSDataHostnameIP` -/

namespace functional_test

open infranetworkv1 client

theorem GetDNSDataHostnameIP_of_lookup (c : Client) (name ns hostname : String) (r : DNSData)
    (hge : c.getErr = none) (h : c.lookup { Namespace := ns, Name := name } = some r) :
    GetDNSDataHostnameIP c name ns hostname = hostLoop r.Spec.Hosts hostname r.Spec.Hosts := by
  simp only [GetDNSDataHostnameIP, GetDNSData, Client.Get, hge, h]

theorem hostLoop_single (ip registered hostname : String) :
    hostLoop [{ IP := ip, Hostnames := [registered] }] hostname
        [{ IP := ip, Hostnames := [registered] }] =
      .ok (if registered = hostname then ip else "") := by
  by_cases h : registered = hostname
  · simp [hostLoop, hostnameLoop, h]
  · simp [hostLoop, hostnameLoop, h]

/-- C9 (evaluation of the code): the IP is read from `Hosts[i]` with `i` the position of the
hostname inside the matching entry.  With one entry of two hostnames, looking up the second
hostname panics on `Hosts[1]`; with a second entry present, the lookup returns the IP of
that second entry although the first entry is the one that contains the hostname. -/
theorem GetDNSDataHostnameIP_indexes_by_hostname_position :
    GetDNSDataHostnameIP scenario.lookupStore "ovsdbserver-nb-0" "openstack" "nb.openstack.svc" =
      .panic "runtime error: index out of range [1] with length 1" ∧
    GetDNSDataHostnameIP scenario.lookupStore "ovsdbserver-nb-1" "openstack" "nb.openstack.svc" =
      .ok "10.0.0.6" ∧
    (scenario.twoHostRecord.Spec.Hosts.find? (fun host => host.Hostnames.contains "nb.openstack.svc")).map
      (fun host => host.IP) = some "10.0.0.5" := by
  decide

end functional_test

/-! ## `DNSData` -/

namespace ovndbcluster

open infranetworkv1 metav1 client controllerutil functional_test

theorem controllerRef_controller (owner : Object) (gvk : schema.GroupVersionKind) :
    (controllerRef owner gvk).Controller = some true := rfl

/-- C4: when the helper reconciles the cluster instance (its object carries the metadata
of the instance, a namespaced resource) and the store has unique keys, a successful
`DNSData` call leaves exactly one record keyed by the pod's namespace and name; its host
list is the single entry `{IP: ip, Hostnames: [serviceName ++ "." ++ namespace ++ ".svc"]}`
with `namespace` the namespace the record itself lives in, and its label selector value is
`"dnsdata"`. -/
theorem DNSData_single_record (h : helper.Helper) (serviceName ip : String)
    (inst : ovnv1.OVNDBCluster) (ovnPod : corev1.Pod) (serviceLabels : List (String × String))
    (c' : Client) (hu : uniqueKeys h.GetClient)
    (ho : h.GetBeforeObject.ObjectMeta = inst.ObjectMeta) (hn : inst.Namespace ≠ "")
    (hs : DNSData h serviceName ip inst ovnPod serviceLabels = (c', none)) :
    ∃ r, c'.objects.filter (fun o => decide (ObjectKeyFromObject o = podKey ovnPod)) = [r] ∧
      r.Spec.Hosts =
        [{ IP := ip, Hostnames := [serviceName ++ "." ++ r.Namespace ++ ".svc"] }] ∧
      r.Spec.DNSDataLabelSelectorValue = "dnsdata" := by
  obtain ⟨gvk, x, rv, _, _, _, hl⟩ :=
    DNSData_success_lookup h serviceName ip inst ovnPod serviceLabels c' hs
  obtain ⟨_, _, _, hns, _⟩ := DNSData_success h serviceName ip inst ovnPod serviceLabels c' hs
  have hu' := DNSData_success_uniqueKeys h serviceName ip inst ovnPod serviceLabels c' hs hu
  have hown : h.beforeObject.ObjectMeta.Namespace = inst.Namespace :=
    congrArg ObjectMeta.Namespace ho
  have hsame : inst.Namespace = ovnPod.Namespace := by
    rcases hns with h0 | h1
    · exact absurd (hown.symm.trans h0) hn
    · exact hown.symm.trans h1
  have hrns : (withResourceVersion rv (syncedRecord (controllerRef h.beforeObject gvk)
      [{ IP := ip, Hostnames := [headlessDNSHostname serviceName inst] }] x)).Namespace =
      ovnPod.Namespace := congrArg ObjectKey.Namespace (lookup_key hl)
  refine ⟨_, filter_key_of_nodup _ _ _ hu' hl, ?_, rfl⟩
  rw [hrns, ← hsame]
  rfl

/-- C4 at the scenario: first sync of the pod on an empty store. -/
theorem DNSData_single_record_witness :
    uniqueKeys scenario.helper.GetClient ∧
    scenario.helper.GetBeforeObject.ObjectMeta = scenario.cluster.ObjectMeta ∧
    scenario.cluster.Namespace ≠ "" ∧
    ∃ r, (DNSData scenario.helper "ovsdbserver-nb" "10.0.0.5" scenario.cluster scenario.pod
        scenario.labels).1.objects.filter
          (fun o => decide (ObjectKeyFromObject o = podKey scenario.pod)) = [r] ∧
      r.Spec.Hosts =
        [{ IP := "10.0.0.5", Hostnames := ["ovsdbserver-nb" ++ "." ++ r.Namespace ++ ".svc"] }] ∧
      r.Spec.DNSDataLabelSelectorValue = "dnsdata" :=
  ⟨by decide, by decide, by decide,
   DNSData_single_record scenario.helper "ovsdbserver-nb" "10.0.0.5" scenario.cluster scenario.pod
     scenario.labels _ (by decide) (by decide) (by decide) (by decide)⟩

/-- C5: `DNSData` is idempotent.  When a call succeeds and a second call with the same
arguments on the resulting store succeeds too, the second call leaves the store exactly as
the first one left it; on a store with unique keys there is still one record of the pod. -/
theorem DNSData_idempotent (h : helper.Helper) (serviceName ip : String)
    (inst : ovnv1.OVNDBCluster) (ovnPod : corev1.Pod) (serviceLabels : List (String × String))
    (c1 c2 : Client)
    (h1 : DNSData h serviceName ip inst ovnPod serviceLabels = (c1, none))
    (h2 : DNSData { h with client := c1 } serviceName ip inst ovnPod serviceLabels = (c2, none)) :
    c2 = c1 ∧
    (uniqueKeys h.GetClient →
      ∃ r, c2.objects.filter (fun o => decide (ObjectKeyFromObject o = podKey ovnPod)) = [r] ∧
        c1.lookup (podKey ovnPod) = some r) := by
  obtain ⟨gvk, x, rv, hg, _, _, hl⟩ :=
    DNSData_success_lookup h serviceName ip inst ovnPod serviceLabels c1 h1
  obtain ⟨gvk2, hg2, _, _, hcase⟩ :=
    DNSData_success { h with client := c1 } serviceName ip inst ovnPod serviceLabels c2 h2
  have hgg : gvk2 = gvk := by
    have : Except.ok gvk2 = (Except.ok gvk : Except GoError schema.GroupVersionKind) :=
      hg2.symm.trans hg
    exact Except.ok.inj this
  subst hgg
  have hc : c2 = c1 := by
    rcases hcase with ⟨hn, _⟩ | ⟨old, hlo, hok, ⟨hne, _⟩ | ⟨_, hc⟩⟩
    · have hn' : c1.lookup (podKey ovnPod) = none := hn
      rw [hl] at hn'
      cases hn'
    · have hlo' : c1.lookup (podKey ovnPod) = some old := hlo
      rw [hl] at hlo'
      cases hlo'
      exfalso
      apply hne
      rw [syncedRecord_withResourceVersion,
        syncedRecord_idem _ (controllerRef_controller _ _) _ _ hok]
    · exact hc
  refine ⟨hc, ?_⟩
  intro hu
  have hu1 := DNSData_success_uniqueKeys h serviceName ip inst ovnPod serviceLabels c1 h1 hu
  subst hc
  exact ⟨_, filter_key_of_nodup _ _ _ hu1 hl, hl⟩

/-- C5 at the scenario: the pod is synced twice, starting from the store that holds the
hand-written record. -/
theorem DNSData_idempotent_witness :
    (DNSData scenario.helperWithStale "ovsdbserver-nb" "10.0.0.5" scenario.cluster scenario.pod
      scenario.labels).2 = none ∧
    (DNSData { scenario.helperWithStale with
        client := (DNSData scenario.helperWithStale "ovsdbserver-nb" "10.0.0.5" scenario.cluster
          scenario.pod scenario.labels).1 }
      "ovsdbserver-nb" "10.0.0.5" scenario.cluster scenario.pod scenario.labels).1 =
      (DNSData scenario.helperWithStale "ovsdbserver-nb" "10.0.0.5" scenario.cluster scenario.pod
        scenario.labels).1 :=
  ⟨by decide,
   (DNSData_idempotent scenario.helperWithStale "ovsdbserver-nb" "10.0.0.5" scenario.cluster
     scenario.pod scenario.labels _ _ (by decide) (by decide)).1⟩

/-- C6: after a successful `DNSData` call, `GetDNSDataHostnameIP` on the record named after
the pod returns the ip that was passed in for the hostname
`serviceName ++ "." ++ instance.Namespace ++ ".svc"`, and `""` for every other hostname. -/
theorem DNSData_lookup_roundtrip (h : helper.Helper) (serviceName ip : String)
    (inst : ovnv1.OVNDBCluster) (ovnPod : corev1.Pod) (serviceLabels : List (String × String))
    (c' : Client) (hs : DNSData h serviceName ip inst ovnPod serviceLabels = (c', none)) :
    GetDNSDataHostnameIP c' ovnPod.Name ovnPod.Namespace
        (serviceName ++ "." ++ inst.Namespace ++ ".svc") = .ok ip ∧
    ∀ hostname, hostname ≠ serviceName ++ "." ++ inst.Namespace ++ ".svc" →
      GetDNSDataHostnameIP c' ovnPod.Name ovnPod.Namespace hostname = .ok "" := by
  obtain ⟨gvk, x, rv, _, _, _, hl⟩ :=
    DNSData_success_lookup h serviceName ip inst ovnPod serviceLabels c' hs
  have hl' : c'.lookup { Namespace := ovnPod.Namespace, Name := ovnPod.Name } = some
      (withResourceVersion rv (syncedRecord (controllerRef h.beforeObject gvk)
        [{ IP := ip, Hostnames := [headlessDNSHostname serviceName inst] }] x)) := hl
  have hge := DNSData_success_getErr h serviceName ip inst ovnPod serviceLabels c' hs
  constructor
  · rw [GetDNSDataHostnameIP_of_lookup _ _ _ _ _ hge hl']
    simp only [withResourceVersion, syncedRecord, hostLoop_single, headlessDNSHostname, if_true]
  · intro hostname hne
    rw [GetDNSDataHostnameIP_of_lookup _ _ _ _ _ hge hl']
    simp only [withResourceVersion, syncedRecord, hostLoop_single, headlessDNSHostname,
      if_neg (Ne.symm hne)]

/-- C6 at the scenario. -/
theorem DNSData_lookup_roundtrip_witness :
    (DNSData scenario.helper "ovsdbserver-nb" "10.0.0.5" scenario.cluster scenario.pod
      scenario.labels).2 = none ∧
    GetDNSDataHostnameIP
      (DNSData scenario.helper "ovsdbserver-nb" "10.0.0.5" scenario.cluster scenario.pod
        scenario.labels).1
      "ovsdbserver-nb-0" "openstack" "ovsdbserver-nb.openstack.svc" = .ok "10.0.0.5" :=
  ⟨by decide,
   (DNSData_lookup_roundtrip scenario.helper "ovsdbserver-nb" "10.0.0.5" scenario.cluster
     scenario.pod scenario.labels _ (by decide)).1⟩

/-- C7: the error `DNSData` returns is `nil` exactly when the `CreateOrPatch` call it makes
(mutate closure included) returns `nil`; otherwise it wraps the error of `CreateOrPatch`
and its message is `"Error creating DNSData <pod name>: <underlying message>"`. -/
theorem DNSData_error_wraps_CreateOrPatch (h : helper.Helper) (serviceName ip : String)
    (inst : ovnv1.OVNDBCluster) (ovnPod : corev1.Pod) (serviceLabels : List (String × String)) :
    (DNSData h serviceName ip inst ovnPod serviceLabels).2 =
      (CreateOrPatch h.GetClient (initialRecord ovnPod serviceLabels)
        (DNSData.mutateFn h
          [{ IP := ip, Hostnames := [serviceName ++ "." ++ inst.Namespace ++ ".svc"] }])).err.map
        (fun err =>
          .wrapError ("Error creating DNSData " ++ ovnPod.Name ++ ": " ++ err.Error) err) := by
  rw [DNSData_eq]
  rfl

/-- C7 at the scenario with create requests refused: the refusal comes back wrapped. -/
theorem DNSData_error_wraps_CreateOrPatch_witness :
    (CreateOrPatch scenario.helperCreateRefused.GetClient
      (initialRecord scenario.pod scenario.labels)
      (DNSData.mutateFn scenario.helperCreateRefused
        [{ IP := "10.0.0.5", Hostnames := ["ovsdbserver-nb.openstack.svc"] }])).err =
      some (.errorString "admission webhook denied the request") ∧
    (DNSData scenario.helperCreateRefused "ovsdbserver-nb" "10.0.0.5" scenario.cluster scenario.pod
      scenario.labels).2 =
      some (.wrapError
        "Error creating DNSData ovsdbserver-nb-0: admission webhook denied the request"
        (.errorString "admission webhook denied the request")) :=
  ⟨by decide,
   (DNSData_error_wraps_CreateOrPatch scenario.helperCreateRefused "ovsdbserver-nb" "10.0.0.5"
     scenario.cluster scenario.pod scenario.labels).trans (by decide)⟩

/-- C8 (as stated, refuted): the store holds a hand-written record of the pod without owner
reference, at version 999.  The call succeeds, the stored labels are kept, and the record
left behind is not the stored one with only host list and label selector value
overwritten: its owner references changed as well, and the store moved it to version
1000. -/
theorem DNSData_patch_touches_owner_references_counterexample :
    scenario.helperWithStale.GetClient.lookup (podKey scenario.pod) = some scenario.staleRecord ∧
    (DNSData scenario.helperWithStale "ovsdbserver-nb" "10.0.0.5" scenario.cluster scenario.pod
      scenario.labels).2 = none ∧
    ∃ r, (DNSData scenario.helperWithStale "ovsdbserver-nb" "10.0.0.5" scenario.cluster
        scenario.pod scenario.labels).1.lookup (podKey scenario.pod) = some r ∧
      r.ObjectMeta.Labels = scenario.staleRecord.ObjectMeta.Labels ∧
      r ≠ { scenario.staleRecord with
            Spec := { Hosts := [{ IP := "10.0.0.5", Hostnames := ["ovsdbserver-nb.openstack.svc"] }]
                      DNSDataLabelSelectorValue := "dnsdata" } } ∧
      r.ObjectMeta.OwnerReferences ≠ scenario.staleRecord.ObjectMeta.OwnerReferences ∧
      scenario.staleRecord.ObjectMeta.ResourceVersion = "999" ∧
      r.ObjectMeta.ResourceVersion = "1000" := by
  refine ⟨by decide, by decide, ?_⟩
  refine ⟨withResourceVersion "1000" (syncedRecord
    (controllerRef scenario.helper.beforeObject
      { Group := "ovn.openstack.org", Version := "v1beta1", Kind := "OVNDBCluster" })
    [{ IP := "10.0.0.5", Hostnames := ["ovsdbserver-nb.openstack.svc"] }]
    scenario.staleRecord), ?_⟩
  decide

/-- C8 (amended): after a successful `DNSData` call, a record that was stored under the
pod's name and namespace has its host list and label selector value overwritten and the
controller reference upserted into its owner references; every other field (the stored
labels among them) is kept, except `metadata.resourceVersion`, which belongs to the store.
When no record was stored, the record created carries the `serviceLabels` argument as its
labels, next to the host list, the label selector value and the controller reference.
Records under other keys are untouched. -/
theorem DNSData_create_or_patch_frame (h : helper.Helper) (serviceName ip : String)
    (inst : ovnv1.OVNDBCluster) (ovnPod : corev1.Pod) (serviceLabels : List (String × String))
    (c' : Client) (hs : DNSData h serviceName ip inst ovnPod serviceLabels = (c', none)) :
    ∃ gvk, apiutil.GVKForObject h.GetBeforeObject h.GetScheme = .ok gvk ∧
      (∀ old, h.GetClient.lookup (podKey ovnPod) = some old →
        ∃ rv, c'.lookup (podKey ovnPod) = some { old with
          Spec := { Hosts := [{ IP := ip,
                                Hostnames := [serviceName ++ "." ++ inst.Namespace ++ ".svc"] }]
                    DNSDataLabelSelectorValue := "dnsdata" }
          ObjectMeta := { old.ObjectMeta with
            ResourceVersion := rv
            OwnerReferences := upsertOwnerRef (controllerRef h.GetBeforeObject gvk)
              old.ObjectMeta.OwnerReferences } }) ∧
      (h.GetClient.lookup (podKey ovnPod) = none →
        ∃ r, c'.lookup (podKey ovnPod) = some r ∧
          r.ObjectMeta.Labels = serviceLabels ∧
          r.Spec = { Hosts := [{ IP := ip,
                                 Hostnames := [serviceName ++ "." ++ inst.Namespace ++ ".svc"] }]
                     DNSDataLabelSelectorValue := "dnsdata" } ∧
          r.ObjectMeta.OwnerReferences = [controllerRef h.GetBeforeObject gvk]) ∧
      (∀ key, key ≠ podKey ovnPod → c'.lookup key = h.GetClient.lookup key) := by
  obtain ⟨gvk, x, rv, hg, hx, _, hl⟩ :=
    DNSData_success_lookup h serviceName ip inst ovnPod serviceLabels c' hs
  refine ⟨gvk, hg, ?_, ?_, ?_⟩
  · intro old hold
    rcases hx with ⟨hn, _⟩ | hx
    · have hn' : h.GetClient.lookup (podKey ovnPod) = none := hn
      rw [hold] at hn'
      cases hn'
    · have hx' : h.GetClient.lookup (podKey ovnPod) = some x := hx
      rw [hold] at hx'
      cases hx'
      exact ⟨rv, hl⟩
  · intro hnone
    rcases hx with ⟨_, hx⟩ | hx
    · subst hx
      exact ⟨_, hl, rfl, rfl, rfl⟩
    · have hx' : h.GetClient.lookup (podKey ovnPod) = some x := hx
      rw [hnone] at hx'
      cases hx'
  · intro key hkey
    exact DNSData_success_frame h serviceName ip inst ovnPod serviceLabels c' hs key hkey

/-- C8 (amended) at the scenario: the hand-written record is patched in place. -/
theorem DNSData_create_or_patch_frame_witness :
    (DNSData scenario.helperWithStale "ovsdbserver-nb" "10.0.0.5" scenario.cluster scenario.pod
      scenario.labels).2 = none ∧
    ∃ gvk, apiutil.GVKForObject scenario.helperWithStale.GetBeforeObject
        scenario.helperWithStale.GetScheme = .ok gvk ∧
      ∃ rv, (DNSData scenario.helperWithStale "ovsdbserver-nb" "10.0.0.5" scenario.cluster
        scenario.pod scenario.labels).1.lookup (podKey scenario.pod) = some
        { scenario.staleRecord with
          Spec := { Hosts := [{ IP := "10.0.0.5",
                                Hostnames := ["ovsdbserver-nb" ++ "." ++ scenario.cluster.Namespace ++ ".svc"] }]
                    DNSDataLabelSelectorValue := "dnsdata" }
          ObjectMeta := { scenario.staleRecord.ObjectMeta with
            ResourceVersion := rv
            OwnerReferences := upsertOwnerRef
              (controllerRef scenario.helperWithStale.GetBeforeObject gvk)
              scenario.staleRecord.ObjectMeta.OwnerReferences } } :=
  ⟨by decide,
   (DNSData_create_or_patch_frame scenario.helperWithStale "ovsdbserver-nb" "10.0.0.5"
      scenario.cluster scenario.pod scenario.labels _ (by decide)).imp
     (fun _ hgvk => ⟨hgvk.1, hgvk.2.1 scenario.staleRecord (by decide)⟩)⟩

/-- C10: for a Service with at least one port, the address `GetDBAddress` returns for a
service name and the namespace of a cluster instance is `"tcp:"`, then the one hostname that
a successful `DNSData` call registers for that service name and instance, then `":"` and
the port, whose rendering holds no colon. -/
theorem GetDBAddress_names_registered_hostname (h : helper.Helper) (serviceName ip : String)
    (inst : ovnv1.OVNDBCluster) (ovnPod : corev1.Pod) (serviceLabels : List (String × String))
    (c' : Client) (svc : corev1.Service) (hp : svc.Spec.Ports ≠ [])
    (hs : DNSData h serviceName ip inst ovnPod serviceLabels = (c', none)) :
    ∃ hostname r, c'.lookup (podKey ovnPod) = some r ∧
      r.Spec.Hosts = [{ IP := ip, Hostnames := [hostname] }] ∧
      GetDBAddress (some svc) serviceName inst.Namespace =
        .ok ("tcp:" ++ hostname ++ ":" ++ toString (svc.Spec.Ports.head hp).Port) ∧
      ':' ∉ (toString (svc.Spec.Ports.head hp).Port).toList := by
  obtain ⟨gvk, x, rv, _, _, _, hl⟩ :=
    DNSData_success_lookup h serviceName ip inst ovnPod serviceLabels c' hs
  obtain ⟨rest, hr⟩ := head_of_cons svc.Spec.Ports hp
  exact ⟨headlessDNSHostname serviceName inst, _, hl, rfl,
    GetDBAddress_of_cons svc serviceName inst.Namespace _ rest hr, intToString_no_colon _⟩

/-- C10 at the scenario. -/
theorem GetDBAddress_names_registered_hostname_witness :
    scenario.service.Spec.Ports ≠ [] ∧
    (DNSData scenario.helper "ovsdbserver-nb" "10.0.0.5" scenario.cluster scenario.pod
      scenario.labels).2 = none ∧
    ∃ hostname r,
      (DNSData scenario.helper "ovsdbserver-nb" "10.0.0.5" scenario.cluster scenario.pod
        scenario.labels).1.lookup (podKey scenario.pod) = some r ∧
      r.Spec.Hosts = [{ IP := "10.0.0.5", Hostnames := [hostname] }] ∧
      GetDBAddress (some scenario.service) "ovsdbserver-nb" scenario.cluster.Namespace =
        .ok ("tcp:" ++ hostname ++ ":" ++
          toString (scenario.service.Spec.Ports.head (by decide)).Port) ∧
      ':' ∉ (toString (scenario.service.Spec.Ports.head (by decide)).Port).toList :=
  ⟨by decide, by decide,
   GetDBAddress_names_registered_hostname scenario.helper "ovsdbserver-nb" "10.0.0.5"
     scenario.cluster scenario.pod scenario.labels _ scenario.service (by decide) (by decide)⟩

end ovndbcluster
